import Mathlib

/-!
Shallow embedding of the CondoSwift authentication subsystem
(`src/routes/auth.js`).

Times are modelled as natural numbers of milliseconds (JavaScript
`Date.now()` / `new Date()`); a request handler receives its clock
reading as an explicit `now` parameter.  The in-memory arrays `users`
and `sessions` become an explicit `AuthState` threaded through the
route handlers, each of which becomes a pure function returning a
`Response` together with the successor state.
-/

namespace CondoSwift

/-- Model of the `bcryptjs` library contract: `hash` produces a salted
one-way digest from which `compare` recovers exactly whether a candidate
password matches the hashed one.  The digest is represented abstractly
by the data that determines `compare`'s behaviour. -/
structure BcryptHash where
  pw : String
  rounds : Nat
deriving DecidableEq, Repr

/-- Model of `bcrypt.hash(password, rounds)`. -/
def bcryptHash (password : String) (rounds : Nat) : BcryptHash :=
  { pw := password, rounds := rounds }

/-- Model of `bcrypt.compare(password, hash)`. -/
def bcryptCompare (password : String) (h : BcryptHash) : Bool :=
  decide (password = h.pw)

/-- The claims body signed by `jwt.sign` in `generateToken`:
`{ userId, timestamp }` plus the standard claims the `jsonwebtoken`
library adds (`iat` always; `exp` exactly when the `expiresIn` option is
supplied).  Times in the custom `timestamp` claim are milliseconds;
`iat`/`exp` are seconds, as in the library. -/
structure JwtPayload where
  userId : Nat
  timestamp : Nat
  iat : Nat
  exp : Option Nat
deriving DecidableEq, Repr

/-- A signed token.  HS256 signing is deterministic, so a token string is
determined by (payload, secret) and two token strings are equal exactly
when payload and secret agree; we therefore represent the token by that
pair, with structural equality standing for string equality. -/
structure JwtToken where
  payload : JwtPayload
  secret : String
deriving DecidableEq, Repr

/-- Model of `jwt.sign({userId, timestamp: nowMs}, secret, {expiresIn})`:
`iat` is the clock in seconds, and `exp = iat + expiresIn` when the
`expiresIn` option is present. -/
def jwtSign (userId : Nat) (nowMs : Nat) (secret : String)
    (expiresIn : Option Nat) : JwtToken :=
  { payload :=
      { userId := userId
        timestamp := nowMs
        iat := nowMs / 1000
        exp := expiresIn.map (fun d => nowMs / 1000 + d) }
    secret := secret }

/-- Model of `jwt.verify(token, secret)` at clock `nowMs`: fails on a
signature mismatch, and fails with `TokenExpiredError` when an `exp`
claim is present and the clock in seconds has reached it; otherwise it
returns the decoded payload. -/
def jwtVerify (t : JwtToken) (secret : String) (nowMs : Nat) :
    Option JwtPayload :=
  if t.secret = secret then
    match t.payload.exp with
    | some e => if nowMs / 1000 ≥ e then none else some t.payload
    | none => some t.payload
  else none

/-- A bearer token as it arrives in the `Authorization` header after
`replace('Bearer ', '')`: either a structurally valid signed token, or
an arbitrary string that `jwt.verify` rejects as malformed. -/
inductive Wire where
  | jwt (t : JwtToken)
  | garbage (s : String)
deriving DecidableEq, Repr

/-- String comparison (`===`) between a presented bearer token and a
stored session token: a malformed string never equals a minted token. -/
def wireMatches (w : Wire) (t : JwtToken) : Bool :=
  match w with
  | .jwt t' => decide (t' = t)
  | .garbage _ => false

/-- Environment configuration consumed by the routes: `JWT_SECRET`,
`JWT_EXPIRES_IN` (seconds) and `BCRYPT_ROUNDS`. -/
structure Config where
  jwtSecret : String
  jwtExpiresIn : Nat
  bcryptRounds : Nat
deriving DecidableEq, Repr

/-- The `generateToken` helper of `auth.js`:
`jwt.sign({ userId, timestamp: Date.now() }, process.env.JWT_SECRET,
{ expiresIn: process.env.JWT_EXPIRES_IN })`. -/
def generateToken (cfg : Config) (userId : Nat) (nowMs : Nat) : JwtToken :=
  jwtSign userId nowMs cfg.jwtSecret (some cfg.jwtExpiresIn)

/-- A record of the in-memory `users` array. -/
structure User where
  id : Nat
  fullName : String
  phone : String
  email : String
  password : BcryptHash
  userType : String
  verified : Bool
  createdAt : Nat
  profileComplete : Bool
  lastLogin : Option Nat
deriving DecidableEq, Repr

/-- A record of the in-memory `sessions` array. -/
structure Session where
  userId : Nat
  token : JwtToken
  createdAt : Nat
  expiresAt : Nat
deriving DecidableEq, Repr

/-- The mutable state of the module: the `users` and `sessions` arrays. -/
structure AuthState where
  users : List User
  sessions : List Session
deriving DecidableEq, Repr

/-- The user object returned in response bodies (`userResponse`).  The
register/login variant omits `phone`, `createdAt` and `lastLogin`; the
`/me` variant includes them; absent JSON fields are `none`. -/
structure PublicUser where
  id : Nat
  fullName : String
  email : String
  phone : Option String := none
  userType : String
  verified : Bool
  profileComplete : Bool
  createdAt : Option Nat := none
  lastLogin : Option (Option Nat) := none
deriving DecidableEq, Repr

/-- An HTTP response as produced by the handlers: status code plus the
JSON body fields the handlers set (fields a handler does not set are
`none` / defaulted). -/
structure Response where
  status : Nat
  success : Bool
  message : String
  token : Option JwtToken := none
  user : Option PublicUser := none
  verificationCode : Option String := none
deriving DecidableEq, Repr

/-- Request body of `POST /register`. -/
structure RegisterRequest where
  fullName : String
  phone : String
  email : String
  password : String
  userType : String
deriving DecidableEq, Repr

/-- Request body of `POST /login`. -/
structure LoginRequest where
  email : String
  password : String
deriving DecidableEq, Repr

/-- Split a character list at every occurrence of `c` (the semantics of
`String.splitOn` on a one-character separator, written structurally so
the kernel can evaluate it). -/
def splitOnChar (c : Char) : List Char → List (List Char)
  | [] => [[]]
  | x :: xs =>
      match splitOnChar c xs with
      | [] => if decide (x = c) then [[], []] else [[x]]
      | seg :: rest =>
          if decide (x = c) then [] :: seg :: rest
          else (x :: seg) :: rest

/-- Model of `validator.js` `isEmail` restricted to the structure the
routes rely on: one `@` separating a nonempty local part from a domain
containing a dot. -/
def isEmailShaped (s : String) : Bool :=
  match splitOnChar '@' s.data with
  | [loc, dom] =>
      decide (loc.length > 0) && decide (dom.length > 0) && dom.contains '.'
  | _ => false

/-- ASCII case-fold of one character (the behaviour of JavaScript
`toLowerCase` on the ASCII range). -/
def lowerChar (c : Char) : Char :=
  if decide ('A' ≤ c) && decide (c ≤ 'Z') then
    Char.ofNat (c.toNat + 32)
  else c

/-- Model of the `normalizeEmail()` sanitizer: case-folds the address
(the default `all_lowercase` behaviour).  The sanitizer rewrites
`req.body.email`, so handlers only ever see the normalized form. -/
def normalizeEmail (s : String) : String :=
  ⟨s.data.map lowerChar⟩

/-- Leading- and trailing-whitespace removal on a character list (the
semantics of `String.trim`, written so the kernel can evaluate it). -/
def trimmed (s : String) : String :=
  ⟨((s.data.dropWhile Char.isWhitespace).reverse.dropWhile
      Char.isWhitespace).reverse⟩

/-- The `phone` rule of `validateRegister`: `matches(/^0[0-9]{8,9}$/)`. -/
def phoneOk (s : String) : Bool :=
  match s.data with
  | c :: rest =>
      decide (c = '0') && rest.all Char.isDigit &&
        (decide (s.length = 9) || decide (s.length = 10))
  | [] => false

/-- The `validateRegister` middleware chain: trimmed name of length ≥ 2,
phone matching the pattern, a well-formed email, password of length ≥ 8,
and a `userType` in the fixed role set. -/
def validRegister (r : RegisterRequest) : Bool :=
  decide ((trimmed r.fullName).length ≥ 2) &&
  phoneOk r.phone &&
  isEmailShaped r.email &&
  decide (r.password.length ≥ 8) &&
  (decide (r.userType = "เจ้าของห้อง") || decide (r.userType = "นายหน้า") ||
    decide (r.userType = "ผู้ซื้อ/เช่า"))

/-- The `validateLogin` middleware chain: a well-formed email and a
nonempty password. -/
def validLogin (r : LoginRequest) : Bool :=
  isEmailShaped r.email && decide (r.password.length > 0)

/-- The `findUserByEmail` helper: `users.find(u => u.email === email)`. -/
def findUserByEmail (users : List User) (email : String) : Option User :=
  users.find? (fun u => decide (u.email = email))

/-- Update the object `Array.prototype.find` would return, in place, as
the JS handler's field assignment on the found user does. -/
def updateFirst (p : α → Bool) (f : α → α) : List α → List α
  | [] => []
  | x :: xs => if p x then f x :: xs else x :: updateFirst p f xs

/-- The `findIndex` + `splice(index, 1)` pair of the logout handler:
remove the first element satisfying `p`, if any. -/
def removeFirst (p : α → Bool) : List α → List α
  | [] => []
  | x :: xs => if p x then xs else x :: removeFirst p xs

/-- Response of the `authLimiter` middleware on exhaustion (HTTP 429). -/
def rateLimitedResp : Response :=
  { status := 429, success := false
    message := "Too many authentication attempts, please try again later." }

/-- The shared 400 validation-failure response body. -/
def validationFailedResp : Response :=
  { status := 400, success := false, message := "ข้อมูลไม่ถูกต้อง" }

/-- The single 401 response body used by the login handler for both the
unknown-email and the wrong-password branch. -/
def credFailResp : Response :=
  { status := 401, success := false, message := "อีเมลหรือรหัสผ่านไม่ถูกต้อง" }

/-- The `POST /register` handler.  `allowed` is the `authLimiter`
verdict (rejection short-circuits before the handler body); `vcode` is
the randomly generated verification code. -/
def registerStep (cfg : Config) (st : AuthState) (r : RegisterRequest)
    (now : Nat) (allowed : Bool) (vcode : String) : Response × AuthState :=
  if !allowed then (rateLimitedResp, st)
  else if !validRegister r then (validationFailedResp, st)
  else
    let email := normalizeEmail r.email
    match findUserByEmail st.users email with
    | some _ =>
        ({ status := 409, success := false
           message := "อีเมลนี้มีผู้ใช้แล้ว" }, st)
    | none =>
        let hashed := bcryptHash r.password cfg.bcryptRounds
        let newUser : User :=
          { id := st.users.length + 1
            fullName := trimmed r.fullName
            phone := r.phone
            email := email
            password := hashed
            userType := r.userType
            verified := false
            createdAt := now
            profileComplete := false
            lastLogin := none }
        ({ status := 201, success := true
           message := "ลงทะเบียนสำเร็จ กรุณายืนยันตัวตนผ่านอีเมล"
           user := some
             { id := newUser.id, fullName := newUser.fullName
               email := newUser.email, userType := newUser.userType
               verified := newUser.verified
               profileComplete := newUser.profileComplete }
           verificationCode := some vcode },
         { st with users := st.users ++ [newUser] })

/-- Number of milliseconds in the fixed 7-day session lifetime
(`7 * 24 * 60 * 60 * 1000`). -/
def sevenDaysMs : Nat := 7 * 24 * 60 * 60 * 1000

/-- The `POST /login` handler.  On success it mints a token, sets the
user's `lastLogin`, and appends a session expiring 7 days out. -/
def loginStep (cfg : Config) (st : AuthState) (r : LoginRequest)
    (now : Nat) (allowed : Bool) : Response × AuthState :=
  if !allowed then (rateLimitedResp, st)
  else if !validLogin r then (validationFailedResp, st)
  else
    let email := normalizeEmail r.email
    match findUserByEmail st.users email with
    | none => (credFailResp, st)
    | some user =>
        if !bcryptCompare r.password user.password then (credFailResp, st)
        else
          let token := generateToken cfg user.id now
          let users' := updateFirst (fun u => decide (u.email = email))
            (fun u => { u with lastLogin := some now }) st.users
          let sess : Session :=
            { userId := user.id, token := token
              createdAt := now, expiresAt := now + sevenDaysMs }
          ({ status := 200, success := true
             message := "เข้าสู่ระบบสำเร็จ"
             token := some token
             user := some
               { id := user.id, fullName := user.fullName
                 email := user.email, userType := user.userType
                 verified := user.verified
                 profileComplete := user.profileComplete } },
           { users := users', sessions := st.sessions ++ [sess] })

/-- The `POST /logout` handler: always 200/success; when a bearer token
is presented, the first session with that token (if any) is spliced
out. -/
def logoutStep (st : AuthState) (tok : Option Wire) : Response × AuthState :=
  let resp : Response :=
    { status := 200, success := true, message := "ออกจากระบบสำเร็จ" }
  match tok with
  | none => (resp, st)
  | some w =>
      (resp,
       { st with
           sessions := removeFirst (fun s => wireMatches w s.token)
             st.sessions })

/-- The session lookup of the `/me` handler:
`sessions.find(s => s.token === token)` followed by the
`!session || session.expiresAt < new Date()` rejection. -/
def sessionCheck (sessions : List Session) (t : JwtToken) (now : Nat) :
    Option Session :=
  match sessions.find? (fun s => decide (s.token = t)) with
  | none => none
  | some s => if s.expiresAt < now then none else some s

/-- The `GET /me` handler.  It does not mutate state, so it returns only
a response. -/
def meStep (cfg : Config) (st : AuthState) (tok : Option Wire) (now : Nat) :
    Response :=
  match tok with
  | none => { status := 401, success := false, message := "ไม่มี token" }
  | some (.garbage _) =>
      { status := 401, success := false, message := "Token ไม่ถูกต้อง" }
  | some (.jwt t) =>
      match jwtVerify t cfg.jwtSecret now with
      | none =>
          { status := 401, success := false, message := "Token ไม่ถูกต้อง" }
      | some decoded =>
          match sessionCheck st.sessions t now with
          | none =>
              { status := 401, success := false, message := "Token หมดอายุ" }
          | some _ =>
              match st.users.find? (fun u => decide (u.id = decoded.userId)) with
              | none =>
                  { status := 404, success := false, message := "ไม่พบผู้ใช้" }
              | some user =>
                  { status := 200, success := true, message := ""
                    user := some
                      { id := user.id, fullName := user.fullName
                        email := user.email, phone := some user.phone
                        userType := user.userType, verified := user.verified
                        profileComplete := user.profileComplete
                        createdAt := some user.createdAt
                        lastLogin := some user.lastLogin } }

/-- States reachable from the empty stores by the mutating operations
register, login and logout (`/me` and `/stats` do not write). -/
inductive Reachable (cfg : Config) : AuthState → Prop
  | init : Reachable cfg ⟨[], []⟩
  | register (st : AuthState) (r : RegisterRequest) (now : Nat)
      (allowed : Bool) (vcode : String) :
      Reachable cfg st →
      Reachable cfg (registerStep cfg st r now allowed vcode).2
  | login (st : AuthState) (r : LoginRequest) (now : Nat) (allowed : Bool) :
      Reachable cfg st → Reachable cfg (loginStep cfg st r now allowed).2
  | logout (st : AuthState) (tok : Option Wire) :
      Reachable cfg st → Reachable cfg (logoutStep st tok).2

/-! Concrete fixtures: a configuration, a valid registration, and the
states produced by registering once and logging in twice at the same
millisecond.  They are used to instantiate the general theorems. -/

/-- A concrete environment configuration (7-day token lifetime in
seconds). -/
def cfg0 : Config :=
  { jwtSecret := "secret", jwtExpiresIn := 604800, bcryptRounds := 10 }

/-- A well-formed registration request (the worked example of the
specification). -/
def reqR : RegisterRequest :=
  { fullName := "Somchai", phone := "0812345678", email := "a@b.com"
    password := "longenough1", userType := "ผู้ซื้อ/เช่า" }

/-- The matching login request. -/
def reqL : LoginRequest := { email := "a@b.com", password := "longenough1" }

/-- State after registering `reqR` on empty stores at time 0. -/
def st1 : AuthState := (registerStep cfg0 ⟨[], []⟩ reqR 0 true "ABC123").2

/-- State after one successful login at time 0. -/
def st2 : AuthState := (loginStep cfg0 st1 reqL 0 true).2

/-- State after a second successful login at the same millisecond. -/
def stDup : AuthState := (loginStep cfg0 st2 reqL 0 true).2

/-- The token issued to user 1 at time 0. -/
def tok0 : JwtToken := generateToken cfg0 1 0

/-- That token as presented on the wire. -/
def w0 : Wire := .jwt tok0

/-- The session record opened by a login of user 1 at time 0. -/
def sess0 : Session :=
  { userId := 1, token := tok0, createdAt := 0, expiresAt := sevenDaysMs }

/-! Helper lemmas about the list surgery used by the handlers. -/

theorem removeFirst_of_forall_not {p : α → Bool} {l : List α}
    (h : ∀ x ∈ l, p x = false) : removeFirst p l = l := by
  induction l with
  | nil => rfl
  | cons x xs ih =>
      simp only [removeFirst, h x (List.mem_cons_self x xs)]
      simp only [Bool.false_eq_true, if_false]
      rw [ih fun y hy => h y (List.mem_cons_of_mem x hy)]

theorem removeFirst_append_first {p : α → Bool} {a b : List α} {s : α}
    (ha : ∀ x ∈ a, p x = false) (hs : p s = true) :
    removeFirst p (a ++ s :: b) = a ++ b := by
  induction a with
  | nil => simp [removeFirst, hs]
  | cons x xs ih =>
      simp only [List.cons_append, removeFirst,
        ha x (List.mem_cons_self x xs), Bool.false_eq_true, if_false]
      show x :: removeFirst p (xs ++ s :: b) = x :: (xs ++ b)
      rw [ih fun y hy => ha y (List.mem_cons_of_mem x hy)]

theorem mem_of_mem_removeFirst {p : α → Bool} {l : List α} {x : α}
    (h : x ∈ removeFirst p l) : x ∈ l := by
  induction l with
  | nil => exact absurd h (List.not_mem_nil x)
  | cons y ys ih =>
      simp only [removeFirst] at h
      by_cases hp : p y = true
      · simp only [hp, if_true] at h
        exact List.mem_cons_of_mem y h
      · simp only [hp, if_false] at h
        rcases List.mem_cons.mp h with h | h
        · exact h ▸ List.mem_cons_self y ys
        · exact List.mem_cons_of_mem y (ih h)

theorem removeFirst_no_match_of_countP_le_one {p : α → Bool} {l : List α}
    (h : l.countP p ≤ 1) : ∀ x ∈ removeFirst p l, p x = false := by
  induction l with
  | nil => intro x hx; exact absurd hx (List.not_mem_nil x)
  | cons y ys ih =>
      intro x hx
      simp only [removeFirst] at hx
      by_cases hp : p y = true
      · simp only [hp, if_true] at hx
        have hys : ys.countP p = 0 := by
          have := List.countP_cons_of_pos p (l := ys) hp
          omega
        exact Bool.eq_false_iff.mpr (List.countP_eq_zero.mp hys x hx)
      · simp only [hp, if_false] at hx
        have hys : ys.countP p ≤ 1 := by
          have := List.countP_cons_of_neg p (l := ys)
            (by simpa using hp)
          omega
        rcases List.mem_cons.mp hx with h | h
        · subst h; exact Bool.eq_false_iff.mpr hp
        · exact ih hys x h

theorem removeFirst_length {p : α → Bool} {a b : List α} {s : α}
    (ha : ∀ x ∈ a, p x = false) (hs : p s = true) :
    (removeFirst p (a ++ s :: b)).length + 1 = (a ++ s :: b).length := by
  rw [removeFirst_append_first ha hs]
  simp
  omega

/-! Step-shape lemmas: how each operation affects the session store. -/

theorem registerStep_sessions (cfg : Config) (st : AuthState)
    (r : RegisterRequest) (now : Nat) (allowed : Bool) (vcode : String) :
    (registerStep cfg st r now allowed vcode).2.sessions = st.sessions := by
  unfold registerStep
  split
  · rfl
  · split
    · rfl
    · dsimp only
      split <;> rfl

theorem loginStep_sessions (cfg : Config) (st : AuthState)
    (r : LoginRequest) (now : Nat) (allowed : Bool) :
    (loginStep cfg st r now allowed).2.sessions = st.sessions ∨
    ∃ uid : Nat, (loginStep cfg st r now allowed).2.sessions =
      st.sessions ++
        [{ userId := uid, token := generateToken cfg uid now
           createdAt := now, expiresAt := now + sevenDaysMs }] := by
  unfold loginStep
  split
  · exact Or.inl rfl
  · split
    · exact Or.inl rfl
    · dsimp only
      split
      · exact Or.inl rfl
      · rename_i user _
        split
        · exact Or.inl rfl
        · exact Or.inr ⟨user.id, rfl⟩

theorem logoutStep_sessions_mem {st : AuthState} {tok : Option Wire}
    {s : Session} (h : s ∈ (logoutStep st tok).2.sessions) :
    s ∈ st.sessions := by
  cases tok with
  | none => exact h
  | some w =>
      simp only [logoutStep] at h
      exact mem_of_mem_removeFirst h

/-- Shape of every session record at creation: its token is exactly the
one `generateToken` mints for its user at its creation instant, and it
expires seven days later. -/
def SessionGood (cfg : Config) (s : Session) : Prop :=
  s.token = generateToken cfg s.userId s.createdAt ∧
  s.expiresAt = s.createdAt + sevenDaysMs

theorem reachable_sessionGood {cfg : Config} {st : AuthState}
    (h : Reachable cfg st) : ∀ s ∈ st.sessions, SessionGood cfg s := by
  induction h with
  | init => intro s hs; exact absurd hs (List.not_mem_nil s)
  | register st r now allowed vcode _ ih =>
      intro s hs
      rw [registerStep_sessions] at hs
      exact ih s hs
  | login st r now allowed _ ih =>
      intro s hs
      rcases loginStep_sessions cfg st r now allowed with heq | ⟨uid, heq⟩
      · rw [heq] at hs; exact ih s hs
      · rw [heq] at hs
        rcases List.mem_append.mp hs with h' | h'
        · exact ih s h'
        · rw [List.mem_singleton.mp h']
          exact ⟨rfl, rfl⟩
  | logout st tok _ ih =>
      intro s hs
      exact ih s (logoutStep_sessions_mem hs)

/-- Reachability of the state obtained by registering the example user
and logging in once at time 0. -/
theorem st2_reachable : Reachable cfg0 st2 :=
  Reachable.login st1 reqL 0 true
    (Reachable.register ⟨[], []⟩ reqR 0 true "ABC123" Reachable.init)

/-- Reachability of the state with two logins of the same user in the
same millisecond. -/
theorem stDup_reachable : Reachable cfg0 stDup :=
  Reachable.login st2 reqL 0 true st2_reachable

/-- C10: logout never touches the user store, removes at most one
session — the first whose token equals the presented one — and leaves
every other session record in place, even when several records carry the
same token. -/
theorem logout_frame (st : AuthState) :
    (logoutStep st none).2 = st ∧
    ∀ w : Wire,
      (logoutStep st (some w)).2.users = st.users ∧
      ((∀ s ∈ st.sessions, wireMatches w s.token = false) →
        (logoutStep st (some w)).2.sessions = st.sessions) ∧
      (∀ a s b, st.sessions = a ++ s :: b →
        (∀ x ∈ a, wireMatches w x.token = false) →
        wireMatches w s.token = true →
        (logoutStep st (some w)).2.sessions = a ++ b) := by
  refine ⟨rfl, fun w => ⟨rfl, fun h => removeFirst_of_forall_not h,
    fun a s b hsplit ha hs => ?_⟩⟩
  simp only [logoutStep, hsplit]
  exact removeFirst_append_first ha hs

/-- Witness for C10 at a concrete state holding two sessions with the
same token: logout removes exactly the first and keeps the users. -/
theorem logout_frame_witness :
    (logoutStep stDup (some w0)).2.users = stDup.users ∧
    (logoutStep stDup (some w0)).2.sessions = [sess0] := by
  refine ⟨((logout_frame stDup).2 w0).1, ?_⟩
  have h := ((logout_frame stDup).2 w0).2.2 [] sess0 [sess0]
    (by decide) (by intro x hx; exact absurd hx (List.not_mem_nil x))
    (by decide)
  simpa using h

/-- C9: in every state reachable by register/login/logout, every session
record satisfies `expiresAt = createdAt + 7 days`; no operation rewrites
these fields. -/
theorem session_duration_invariant {cfg : Config} {st : AuthState}
    (h : Reachable cfg st) :
    ∀ s ∈ st.sessions, s.expiresAt = s.createdAt + sevenDaysMs :=
  fun s hs => (reachable_sessionGood h s hs).2

/-- Witness for C9 at the concrete one-login state. -/
theorem session_duration_invariant_witness :
    sess0.expiresAt = sess0.createdAt + sevenDaysMs :=
  session_duration_invariant st2_reachable sess0 (by decide)

/-- C2 fails as stated: logging the same user in twice within the same
millisecond reaches a state whose session store holds two records with
the very same token, so session tokens are not pairwise distinct. -/
theorem token_uniqueness_counterexample :
    Reachable cfg0 stDup ∧
    stDup.sessions.map Session.token = [tok0, tok0] ∧
    ¬ stDup.sessions.Pairwise (fun a b => a.token ≠ b.token) :=
  ⟨stDup_reachable, by decide, by decide⟩

/-- C2 amended: in any reachable state, two session records can share a
token only when they belong to the same user and were created in the
same millisecond; equivalently, any two sessions differing in user or in
creation time carry distinct tokens, so a login at a time distinct from
every stored session's creation time is issued a fresh token. -/
theorem token_collision_only_same_user_and_instant {cfg : Config}
    {st : AuthState} (h : Reachable cfg st) :
    ∀ s1 ∈ st.sessions, ∀ s2 ∈ st.sessions, s1.token = s2.token →
      s1.userId = s2.userId ∧ s1.createdAt = s2.createdAt := by
  intro s1 h1 s2 h2 htok
  have g1 := (reachable_sessionGood h s1 h1).1
  have g2 := (reachable_sessionGood h s2 h2).1
  rw [g1, g2] at htok
  exact ⟨congrArg (fun t => t.payload.userId) htok,
    congrArg (fun t => t.payload.timestamp) htok⟩

/-- Witness for the amended C2 theorem at the concrete duplicated
state. -/
theorem token_collision_only_same_user_and_instant_witness :
    sess0.userId = sess0.userId ∧ sess0.createdAt = sess0.createdAt :=
  token_collision_only_same_user_and_instant stDup_reachable
    sess0 (by decide) sess0 (by decide) rfl

/-- Whoami rejects with 401 whenever no stored session's token equals the
presented bearer token, whatever the token itself looks like. -/
theorem meStep_401_of_no_match (cfg : Config) (st : AuthState) (w : Wire)
    (now : Nat) (h : ∀ s ∈ st.sessions, wireMatches w s.token = false) :
    (meStep cfg st (some w) now).status = 401 ∧
    (meStep cfg st (some w) now).success = false := by
  cases w with
  | garbage s => exact ⟨rfl, rfl⟩
  | jwt t =>
      have hfind : st.sessions.find? (fun s => decide (s.token = t)) = none := by
        apply List.find?_eq_none.mpr
        intro s hs
        have hne : t ≠ s.token := by
          have := h s hs
          simpa [wireMatches] using this
        simp [Ne.symm hne]
      have hsc : sessionCheck st.sessions t now = none := by
        simp [sessionCheck, hfind]
      rcases hv : jwtVerify t cfg.jwtSecret now with _ | p
      · constructor <;> simp [meStep, hv]
      · constructor <;> simp [meStep, hv, hsc]

/-- C1 fails as stated: the `expiresIn` option is passed to `jwt.sign`,
so the signed payload of an issued token carries an `exp` claim besides
the userId and issuance time; moreover `jwt.verify` itself enforces that
claim, so at a time when the Session Registry record is still valid
(here the boundary instant of the session) whoami already rejects the
token — expiry is not enforced solely by the registry. -/
theorem token_payload_counterexample :
    (generateToken cfg0 1 0).payload.exp = some 604800 ∧
    (generateToken cfg0 1 0).payload.exp ≠ none ∧
    sessionCheck st2.sessions tok0 604800000 = some sess0 ∧
    (meStep cfg0 st2 (some w0) 604800000).status = 401 ∧
    (meStep cfg0 st2 (some w0) 604800000).message = "Token ไม่ถูกต้อง" :=
  ⟨rfl, by decide, by decide, by decide, by decide⟩

/-- C1 amended: the signed payload of an issued token carries the userId,
the issuance time, and an expiry claim `exp = iat + jwtExpiresIn`; and a
token that verifies but whose session record is absent or expired (the
session lookup fails) still fails whoami with a 401. -/
theorem token_payload_and_registry_check (cfg : Config) (uid nowMs : Nat)
    (st : AuthState) (t : JwtToken) (now2 : Nat)
    (hver : (jwtVerify t cfg.jwtSecret now2).isSome = true)
    (hsess : sessionCheck st.sessions t now2 = none) :
    (generateToken cfg uid nowMs).payload.userId = uid ∧
    (generateToken cfg uid nowMs).payload.timestamp = nowMs ∧
    (generateToken cfg uid nowMs).payload.exp =
      some (nowMs / 1000 + cfg.jwtExpiresIn) ∧
    (meStep cfg st (some (Wire.jwt t)) now2).status = 401 ∧
    (meStep cfg st (some (Wire.jwt t)) now2).success = false := by
  obtain ⟨p, hp⟩ := Option.isSome_iff_exists.mp hver
  refine ⟨rfl, rfl, rfl, ?_, ?_⟩ <;> simp [meStep, hp, hsess]

/-- Witness for the amended C1: a verifying token presented against an
empty session store is rejected by whoami. -/
theorem token_payload_and_registry_check_witness :
    (generateToken cfg0 1 0).payload.userId = 1 ∧
    (generateToken cfg0 1 0).payload.timestamp = 0 ∧
    (generateToken cfg0 1 0).payload.exp = some (0 / 1000 + cfg0.jwtExpiresIn) ∧
    (meStep cfg0 ⟨[], []⟩ (some (Wire.jwt tok0)) 0).status = 401 ∧
    (meStep cfg0 ⟨[], []⟩ (some (Wire.jwt tok0)) 0).success = false :=
  token_payload_and_registry_check cfg0 1 0 ⟨[], []⟩ tok0 0
    (by decide) (by decide)

/-- C5: verifying a freshly issued token with the same signing secret
succeeds (the configured lifetime being positive) and yields the signed
payload, whose userId is the one that was issued. -/
theorem token_roundtrip (cfg : Config) (uid nowMs : Nat)
    (h : 0 < cfg.jwtExpiresIn) :
    jwtVerify (generateToken cfg uid nowMs) cfg.jwtSecret nowMs =
      some (generateToken cfg uid nowMs).payload ∧
    (generateToken cfg uid nowMs).payload.userId = uid := by
  refine ⟨?_, rfl⟩
  simp only [jwtVerify, generateToken, jwtSign, Option.map, if_pos]
  rw [if_neg]
  omega

/-- Witness for C5 at a concrete user and instant. -/
theorem token_roundtrip_witness :
    jwtVerify (generateToken cfg0 7 1234) cfg0.jwtSecret 1234 =
      some (generateToken cfg0 7 1234).payload ∧
    (generateToken cfg0 7 1234).payload.userId = 7 :=
  token_roundtrip cfg0 7 1234 (by decide)

/-- C4 amended: logout with no token, an unknown token, or a matching
token always answers 200 with success; only a matching token removes a
session; and when at most one stored session carries the presented
token, a following whoami with that token is rejected with 401. -/
theorem logout_fail_open (cfg : Config) (st : AuthState) (w : Wire)
    (now : Nat) :
    ((logoutStep st none).1.status = 200 ∧
      (logoutStep st none).1.success = true ∧
      (logoutStep st none).2 = st) ∧
    (logoutStep st (some w)).1.status = 200 ∧
    (logoutStep st (some w)).1.success = true ∧
    ((∀ s ∈ st.sessions, wireMatches w s.token = false) →
      (logoutStep st (some w)).2 = st) ∧
    (st.sessions.countP (fun s => wireMatches w s.token) ≤ 1 →
      (meStep cfg (logoutStep st (some w)).2 (some w) now).status = 401 ∧
      (meStep cfg (logoutStep st (some w)).2 (some w) now).success = false) := by
  refine ⟨⟨rfl, rfl, rfl⟩, rfl, rfl, fun h => ?_, fun hc => ?_⟩
  · show ({ st with sessions := removeFirst _ st.sessions } : AuthState) = st
    rw [removeFirst_of_forall_not h]
  · exact meStep_401_of_no_match cfg _ w now
      (removeFirst_no_match_of_countP_le_one hc)

/-- Witness for the amended C4 at the one-session state: logout answers
200 and the following whoami with the same token answers 401. -/
theorem logout_fail_open_witness :
    (logoutStep st2 (some w0)).1.status = 200 ∧
    (meStep cfg0 (logoutStep st2 (some w0)).2 (some w0) 0).status = 401 :=
  ⟨(logout_fail_open cfg0 st2 w0 0).2.1,
   ((logout_fail_open cfg0 st2 w0 0).2.2.2.2 (by decide)).1⟩

/-- C4 fails as stated in a reachable state where two session records
carry the presented token: logout reports success and removes one
record, yet a following whoami with the very same token still succeeds
with 200. -/
theorem logout_then_whoami_counterexample :
    Reachable cfg0 stDup ∧
    (logoutStep stDup (some w0)).1.status = 200 ∧
    (logoutStep stDup (some w0)).1.success = true ∧
    (logoutStep stDup (some w0)).2.sessions.length + 1 =
      stDup.sessions.length ∧
    (meStep cfg0 (logoutStep stDup (some w0)).2 (some w0) 0).status = 200 ∧
    (meStep cfg0 (logoutStep stDup (some w0)).2 (some w0) 0).success = true :=
  ⟨stDup_reachable, by decide, by decide, by decide, by decide, by decide⟩

/-- C6: when the session lookup of whoami finds record `s` for a token,
the lookup fails at any time strictly after `s.expiresAt` (and whoami
answers 401 there), succeeds at any time strictly before it, and at the
boundary instant `now = expiresAt` the code's comparison
`expiresAt < now` is false, so the lookup succeeds. -/
theorem session_expiry_boundary (cfg : Config) (st : AuthState)
    (t : JwtToken) (now : Nat) (s : Session)
    (hfind : st.sessions.find? (fun x => decide (x.token = t)) = some s) :
    (s.expiresAt < now →
      sessionCheck st.sessions t now = none ∧
      (meStep cfg st (some (Wire.jwt t)) now).status = 401 ∧
      (meStep cfg st (some (Wire.jwt t)) now).success = false) ∧
    (now < s.expiresAt → sessionCheck st.sessions t now = some s) ∧
    (now = s.expiresAt → sessionCheck st.sessions t now = some s) := by
  refine ⟨fun h => ?_, fun h => ?_, fun h => ?_⟩
  · have hsc : sessionCheck st.sessions t now = none := by
      simp [sessionCheck, hfind, h]
    refine ⟨hsc, ?_⟩
    rcases hv : jwtVerify t cfg.jwtSecret now with _ | p
    · constructor <;> simp [meStep, hv]
    · constructor <;> simp [meStep, hv, hsc]
  · simp [sessionCheck, hfind, Nat.lt_asymm h]
  · subst h
    simp [sessionCheck, hfind]

/-- Witness for C6 at the concrete one-session state, exercised strictly
after expiry, strictly before it, and at the boundary instant. -/
theorem session_expiry_boundary_witness :
    (sessionCheck st2.sessions tok0 604800001 = none ∧
      (meStep cfg0 st2 (some (Wire.jwt tok0)) 604800001).status = 401 ∧
      (meStep cfg0 st2 (some (Wire.jwt tok0)) 604800001).success = false) ∧
    sessionCheck st2.sessions tok0 12345 = some sess0 ∧
    sessionCheck st2.sessions tok0 604800000 = some sess0 :=
  ⟨(session_expiry_boundary cfg0 st2 tok0 604800001 sess0 (by decide)).1
      (by decide),
   (session_expiry_boundary cfg0 st2 tok0 12345 sess0 (by decide)).2.1
      (by decide),
   (session_expiry_boundary cfg0 st2 tok0 604800000 sess0 (by decide)).2.2
      (by decide)⟩

/-- Shared helper: a well-formed, non-rate-limited login failing either
credential check returns exactly `(credFailResp, st)`. -/
theorem loginStep_credfail_eq (cfg : Config) (st : AuthState)
    (r : LoginRequest) (now : Nat) (hv : validLogin r = true)
    (hfail : findUserByEmail st.users (normalizeEmail r.email) = none ∨
      ∃ u, findUserByEmail st.users (normalizeEmail r.email) = some u ∧
        bcryptCompare r.password u.password = false) :
    loginStep cfg st r now true = (credFailResp, st) := by
  rcases hfail with hnone | ⟨u, hu, hpw⟩
  · simp [loginStep, hv, hnone]
  · simp [loginStep, hv, hu, hpw]

/-- C3: a well-formed, non-rate-limited login that fails — whether
because the email matches no stored user or because the stored hash does
not verify the password — produces the single fixed 401 response
`credFailResp` and leaves the state unchanged, so the two failures are
indistinguishable to the caller. -/
theorem login_failure_indistinguishable (cfg : Config) (st : AuthState)
    (r : LoginRequest) (now : Nat) (hv : validLogin r = true)
    (hfail : findUserByEmail st.users (normalizeEmail r.email) = none ∨
      ∃ u, findUserByEmail st.users (normalizeEmail r.email) = some u ∧
        bcryptCompare r.password u.password = false) :
    loginStep cfg st r now true = (credFailResp, st) :=
  loginStep_credfail_eq cfg st r now hv hfail

/-- Witness for C3: both failure shapes at concrete inputs — unknown
email on empty stores, and a wrong password against the registered
user — yield the very same response value. -/
theorem login_failure_indistinguishable_witness :
    loginStep cfg0 ⟨[], []⟩ reqL 0 true = (credFailResp, (⟨[], []⟩ : AuthState)) ∧
    loginStep cfg0 st1 ⟨"a@b.com", "wrongpassword"⟩ 0 true = (credFailResp, st1) :=
  ⟨login_failure_indistinguishable cfg0 ⟨[], []⟩ reqL 0 (by decide)
      (Or.inl (by decide)),
   login_failure_indistinguishable cfg0 st1 ⟨"a@b.com", "wrongpassword"⟩ 0
      (by decide)
      (Or.inr ⟨{ id := 1, fullName := "Somchai", phone := "0812345678"
                 email := "a@b.com"
                 password := { pw := "longenough1", rounds := 10 }
                 userType := "ผู้ซื้อ/เช่า", verified := false, createdAt := 0
                 profileComplete := false, lastLogin := none },
               by decide, by decide⟩)⟩

/-- C7: a register or login request rejected by the rate limiter or by
validation leaves the state — user store, session store, and every user
record — exactly as it was, and a login failing credential verification
(unknown email or non-verifying password) likewise persists nothing. -/
theorem no_mutation_on_failure (cfg : Config) (st : AuthState)
    (rr : RegisterRequest) (rl : LoginRequest) (now : Nat) (vcode : String) :
    (registerStep cfg st rr now false vcode).2 = st ∧
    (validRegister rr = false →
      (registerStep cfg st rr now true vcode).2 = st) ∧
    (loginStep cfg st rl now false).2 = st ∧
    (validLogin rl = false → (loginStep cfg st rl now true).2 = st) ∧
    (validLogin rl = true →
      findUserByEmail st.users (normalizeEmail rl.email) = none →
      (loginStep cfg st rl now true).2 = st) ∧
    (∀ u, validLogin rl = true →
      findUserByEmail st.users (normalizeEmail rl.email) = some u →
      bcryptCompare rl.password u.password = false →
      (loginStep cfg st rl now true).2 = st) := by
  refine ⟨rfl, fun h => ?_, rfl, fun h => ?_, fun hv h => ?_,
    fun u hv hu hpw => ?_⟩
  · simp [registerStep, h]
  · simp [loginStep, h]
  · have := loginStep_credfail_eq cfg st rl now hv (Or.inl h)
    exact congrArg Prod.snd this
  · have := loginStep_credfail_eq cfg st rl now hv
      (Or.inr ⟨u, hu, hpw⟩)
    exact congrArg Prod.snd this

/-- Witness for C7: a rate-limited register and a wrong-password login at
concrete inputs leave the concrete state untouched. -/
theorem no_mutation_on_failure_witness :
    (registerStep cfg0 st1 reqR 5 false "V").2 = st1 ∧
    (loginStep cfg0 st1 ⟨"a@b.com", "nope-nope-nope"⟩ 5 true).2 = st1 :=
  ⟨(no_mutation_on_failure cfg0 st1 reqR ⟨"a@b.com", "nope-nope-nope"⟩ 5 "V").1,
   (no_mutation_on_failure cfg0 st1 reqR ⟨"a@b.com", "nope-nope-nope"⟩ 5
       "V").2.2.2.2.2
     { id := 1, fullName := "Somchai", phone := "0812345678"
       email := "a@b.com", password := { pw := "longenough1", rounds := 10 }
       userType := "ผู้ซื้อ/เช่า", verified := false, createdAt := 0
       profileComplete := false, lastLogin := none }
     (by decide) (by decide) (by decide)⟩

/-! Helper lemmas for the duplicate-email claim. -/

theorem findUserByEmail_append_right {l : List User} {u : User} {e : String}
    (hu : u.email = e) :
    ∃ v, findUserByEmail (l ++ [u]) e = some v := by
  induction l with
  | nil =>
      refine ⟨u, ?_⟩
      simp [findUserByEmail, List.find?_cons_of_pos, hu]
  | cons x xs ih =>
      by_cases hx : x.email = e
      · refine ⟨x, ?_⟩
        simp [findUserByEmail, List.find?_cons_of_pos, hx]
      · rcases ih with ⟨v, hv⟩
        refine ⟨v, ?_⟩
        simp only [findUserByEmail] at hv ⊢
        rw [List.cons_append, List.find?_cons_of_neg _ (by simpa using hx)]
        exact hv

theorem registerStep_success (cfg : Config) (st : AuthState)
    (r : RegisterRequest) (now : Nat) (v : String)
    (hv : validRegister r = true)
    (hnone : findUserByEmail st.users (normalizeEmail r.email) = none) :
    (registerStep cfg st r now true v).1.status = 201 ∧
    ∃ u : User, u.email = normalizeEmail r.email ∧
      (registerStep cfg st r now true v).2.users = st.users ++ [u] ∧
      (registerStep cfg st r now true v).2.sessions = st.sessions := by
  simp only [registerStep, hv, hnone, Bool.not_true, Bool.not_false]
  exact ⟨rfl, ⟨_, rfl, rfl, rfl⟩⟩

theorem registerStep_dup (cfg : Config) (st : AuthState)
    (r : RegisterRequest) (now : Nat) (v : String)
    (hv : validRegister r = true)
    (hsome : ∃ u, findUserByEmail st.users (normalizeEmail r.email) = some u) :
    (registerStep cfg st r now true v).1.status = 409 ∧
    (registerStep cfg st r now true v).2 = st := by
  rcases hsome with ⟨u, hu⟩
  constructor <;> simp [registerStep, hv, hu]

/-- C8: after a successful registration, a further well-formed and
non-rate-limited registration whose email case-folds to the same address
is rejected with 409 and creates no user. -/
theorem duplicate_email_rejected (cfg : Config) (st : AuthState)
    (r1 r2 : RegisterRequest) (now1 now2 : Nat) (v1 v2 : String)
    (hv1 : validRegister r1 = true)
    (hnone : findUserByEmail st.users (normalizeEmail r1.email) = none)
    (hv2 : validRegister r2 = true)
    (hnorm : normalizeEmail r1.email = normalizeEmail r2.email) :
    (registerStep cfg st r1 now1 true v1).1.status = 201 ∧
    (registerStep cfg (registerStep cfg st r1 now1 true v1).2
        r2 now2 true v2).1.status = 409 ∧
    (registerStep cfg (registerStep cfg st r1 now1 true v1).2
        r2 now2 true v2).2 = (registerStep cfg st r1 now1 true v1).2 := by
  obtain ⟨h201, u, hue, husers, -⟩ :=
    registerStep_success cfg st r1 now1 v1 hv1 hnone
  have hsome : ∃ w, findUserByEmail
      ((registerStep cfg st r1 now1 true v1).2.users)
      (normalizeEmail r2.email) = some w := by
    rw [husers]
    exact findUserByEmail_append_right (hue.trans hnorm)
  obtain ⟨h409, hst⟩ :=
    registerStep_dup cfg (registerStep cfg st r1 now1 true v1).2
      r2 now2 v2 hv2 hsome
  exact ⟨h201, h409, hst⟩

/-- A second registration request differing from `reqR` only in the
letter case of its email address. -/
def reqR2 : RegisterRequest := { reqR with email := "A@B.com" }

/-- Witness for C8 at concrete inputs: registering `a@b.com` then
`A@B.com` yields 201 then 409 with no state change. -/
theorem duplicate_email_rejected_witness :
    (registerStep cfg0 ⟨[], []⟩ reqR 0 true "V1").1.status = 201 ∧
    (registerStep cfg0 (registerStep cfg0 ⟨[], []⟩ reqR 0 true "V1").2
        reqR2 1 true "V2").1.status = 409 ∧
    (registerStep cfg0 (registerStep cfg0 ⟨[], []⟩ reqR 0 true "V1").2
        reqR2 1 true "V2").2 = (registerStep cfg0 ⟨[], []⟩ reqR 0 true "V1").2 :=
  duplicate_email_rejected cfg0 ⟨[], []⟩ reqR reqR2 0 1 "V1" "V2"
    (by decide) (by decide) (by decide) (by decide)

end CondoSwift
